import Mathlib

/-!
Shallow embedding of the planty-mcp plant-care tracker: the Record Store
(src/src/database.ts, class PlantDatabase over PostgreSQL), the access
middleware (src/src/auth.ts, createMiddleware), the SSE session registry
(src/src/http.ts, userTransports) and the watering-schedule tool handler
(handlers.ts, get_watering_schedule case).

Rows of the six tables are structures; the database is a `Store` of lists
of rows, and each PlantDatabase method becomes a pure function threading
the store. SQL statement failures that the claims mention (a failure
between the two writes of waterPlant, a failure of the last-used UPDATE)
are injected as explicit boolean parameters marking the statement that
fails. The sha256 key hash is an abstract `hash : String → String`
parameter; uuid generation and clock reads become explicit arguments.
-/

namespace Planty

/-- Rows of the users table (id, email, created_at); email is nullable at
the interface (User.email : string | null). -/
structure UserRow where
  id : String
  email : Option String
  createdAt : String
deriving Repr, DecidableEq

/-- Rows of the api_keys table: id, user_id, key_hash, key_prefix,
created_at, last_used (nullable), is_active. -/
structure ApiKeyRow where
  id : String
  userId : String
  keyHash : String
  keyPref : String
  createdAt : String
  lastUsed : Option String
  isActive : Bool
deriving Repr, DecidableEq

/-- Rows of the plants table, in the camelCase shape returned by the
store's row mappers (types.ts Plant plus the owning user_id column). -/
structure Plant where
  id : String
  userId : String
  name : String
  species : String
  location : String
  acquiredDate : String
  wateringFrequency : Int
  lastWatered : Option String
  notes : Option String
  createdAt : String
  updatedAt : String
deriving Repr, DecidableEq

/-- Rows of the watering_history table. -/
structure WateringRow where
  id : String
  userId : String
  plantId : String
  wateredDate : String
  notes : Option String
  createdAt : String
deriving Repr, DecidableEq

/-- Rows of the growth_logs table. -/
structure GrowthRow where
  id : String
  userId : String
  plantId : String
  logDate : String
  measureType : String
  measureUnit : String
  value : Int
  notes : Option String
  createdAt : String
deriving Repr, DecidableEq

/-- Rows of the plant_images table. -/
structure ImageRow where
  id : String
  userId : String
  plantId : String
  filename : String
  caption : Option String
  takenAt : String
  createdAt : String
deriving Repr, DecidableEq

/-- The relational store: one list of rows per table, in insertion order. -/
structure Store where
  users : List UserRow
  apiKeys : List ApiKeyRow
  plants : List Plant
  waterings : List WateringRow
  growthLogs : List GrowthRow
  images : List ImageRow
deriving Repr, DecidableEq

/-- PlantDatabase.getPlant: SELECT * FROM plants WHERE id = $1 AND
user_id = $2, returning the first row or undefined. -/
def getPlant (s : Store) (userId id : String) : Option Plant :=
  (s.plants.filter (fun p => p.id == id && p.userId == userId)).head?

/-- The optional filters of PlantDatabase.listPlants. -/
structure Filters where
  location : Option String
  species : Option String
deriving Repr, DecidableEq

/-- The WHERE clause of listPlants: user_id = $1, plus `location = l`
when `filters.location` is a truthy (non-empty) string — the source
guards each extra condition with `if (filters.location)` — and likewise
for species. -/
def listPlantsPred (userId : String) (filters : Filters) (p : Plant) : Bool :=
  p.userId == userId
    && (match filters.location with
        | none => true
        | some l => if l == "" then true else p.location == l)
    && (match filters.species with
        | none => true
        | some sp => if sp == "" then true else p.species == sp)

/-- PlantDatabase.listPlants: SELECT with the filters above, ORDER BY
name (ascending); the ordering is modelled as a sort on the name field. -/
def listPlants (s : Store) (userId : String) (filters : Filters) : List Plant :=
  (s.plants.filter (listPlantsPred userId filters)).insertionSort
    (fun p q => p.name ≤ q.name)

/-- The duck-typed Partial update object of PlantDatabase.updatePlant: a
field is in `_.keys(updates)` exactly when it is `some`. `lastWatered`
and `notes` are nullable in the Plant shape, so a present value is
itself an Option. -/
structure PlantUpdates where
  name : Option String
  species : Option String
  location : Option String
  acquiredDate : Option String
  wateringFrequency : Option Int
  lastWatered : Option (Option String)
  notes : Option (Option String)
deriving Repr, DecidableEq

/-- `_.keys(updates).length === 0`. -/
def PlantUpdates.isEmpty (u : PlantUpdates) : Bool :=
  u.name.isNone && u.species.isNone && u.location.isNone
    && u.acquiredDate.isNone && u.wateringFrequency.isNone
    && u.lastWatered.isNone && u.notes.isNone

/-- The SET clause of updatePlant: each present field is written, plus
updated_at = now. -/
def applyUpdates (u : PlantUpdates) (now : String) (p : Plant) : Plant :=
  { p with
      name := u.name.getD p.name
      species := u.species.getD p.species
      location := u.location.getD p.location
      acquiredDate := u.acquiredDate.getD p.acquiredDate
      wateringFrequency := u.wateringFrequency.getD p.wateringFrequency
      lastWatered := u.lastWatered.getD p.lastWatered
      notes := u.notes.getD p.notes
      updatedAt := now }

/-- PlantDatabase.updatePlant: getPlant guard; zero fields is a no-op
returning the current record; otherwise UPDATE the present fields and
updated_at WHERE id AND user_id, then re-read via getPlant. -/
def updatePlant (s : Store) (userId id : String) (u : PlantUpdates)
    (now : String) : Option Plant × Store :=
  match getPlant s userId id with
  | none => (none, s)
  | some current =>
    if u.isEmpty then (some current, s)
    else
      let s' := { s with plants := s.plants.map (fun p =>
        if p.id == id && p.userId == userId then applyUpdates u now p else p) }
      (getPlant s' userId id, s')

/-- Outcome of a waterPlant run, carrying the store it leaves behind;
`failedBetween` is the run where the second statement (the plants
UPDATE) fails after the watering_history INSERT succeeded — the source
issues the two statements as independent queries with no transaction. -/
inductive WaterOutcome where
  | notFound (s : Store)
  | failedBetween (s : Store)
  | ok (ev : WateringRow) (s : Store)
deriving Repr, DecidableEq

/-- PlantDatabase.waterPlant: getPlant guard, INSERT INTO
watering_history, then UPDATE plants SET last_watered, updated_at.
`failAfterInsert` injects a failure between the two statements. -/
def waterPlant (s : Store) (userId plantId wateredDate : String)
    (notes : Option String) (freshId now : String)
    (failAfterInsert : Bool) : WaterOutcome :=
  match getPlant s userId plantId with
  | none => .notFound s
  | some _ =>
    let ev : WateringRow :=
      ⟨freshId, userId, plantId, wateredDate, notes, now⟩
    let s1 := { s with waterings := s.waterings ++ [ev] }
    if failAfterInsert then .failedBetween s1
    else
      let s2 := { s1 with plants := s1.plants.map (fun p =>
        if p.id == plantId && p.userId == userId then
          { p with lastWatered := some wateredDate, updatedAt := now }
        else p) }
      .ok ev s2

/-- PlantDatabase.addGrowthLog: getPlant guard then INSERT INTO
growth_logs; undefined with no write when the plant is not owned. -/
def addGrowthLog (s : Store) (userId plantId logDate measureType
    measureUnit : String) (value : Int) (notes : Option String)
    (freshId now : String) : Option GrowthRow × Store :=
  match getPlant s userId plantId with
  | none => (none, s)
  | some _ =>
    let row : GrowthRow :=
      ⟨freshId, userId, plantId, logDate, measureType, measureUnit,
        value, notes, now⟩
    (some row, { s with growthLogs := s.growthLogs ++ [row] })

/-- PlantDatabase.addPlantImage: getPlant guard then INSERT INTO
plant_images; undefined with no write when the plant is not owned. -/
def addPlantImage (s : Store) (userId plantId filename : String)
    (caption : Option String) (takenAt freshId now : String) :
    Option ImageRow × Store :=
  match getPlant s userId plantId with
  | none => (none, s)
  | some _ =>
    let row : ImageRow :=
      ⟨freshId, userId, plantId, filename, caption, takenAt, now⟩
    (some row, { s with images := s.images ++ [row] })

/-- PlantDatabase.createUser: INSERT a fresh uuid row; on an insert
error (here: the UNIQUE constraint on email firing) the catch block
looks the fresh id up with getUserById and rethrows when that finds
nothing — it never looks the email up. -/
def createUser (s : Store) (email : Option String) (freshId now : String) :
    Except Unit (String × Store) :=
  let emailDup := match email with
    | none => false
    | some e => s.users.any (fun u => u.email == some e)
  if emailDup then
    match (s.users.filter (fun u => u.id == freshId)).head? with
    | some existing => .ok (existing.id, s)
    | none => .error ()
  else
    .ok (freshId, { s with users := s.users ++ [⟨freshId, email, now⟩] })

/-- PlantDatabase.createApiKey: the generated token `apiKey` is stored
only as `hash apiKey` plus its first 16 characters, with is_active
defaulting to true; the plaintext token is the return value. -/
def createApiKey (s : Store) (hash : String → String)
    (userId apiKey freshId now : String) : String × Store :=
  (apiKey, { s with apiKeys := s.apiKeys ++
    [⟨freshId, userId, hash apiKey, apiKey.take 16, now, none, true⟩] })

/-- PlantDatabase.getUserByApiKey: SELECT users JOIN api_keys ON
u.id = ak.user_id WHERE ak.key_hash = hash(apiKey) AND ak.is_active;
empty result is undefined with no write; otherwise the last-used UPDATE
runs (awaited, unguarded: when it fails — `recordFails` — the whole
call rejects) and the first joined user row is returned. -/
def getUserByApiKey (s : Store) (hash : String → String) (apiKey : String)
    (now : String) (recordFails : Bool) :
    Except Unit (Option UserRow × Store) :=
  let keyHash := hash apiKey
  let joined := s.apiKeys.filterMap (fun k =>
    if k.keyHash == keyHash && k.isActive then
      s.users.find? (fun u => u.id == k.userId)
    else none)
  match joined.head? with
  | none => .ok (none, s)
  | some u =>
    if recordFails then .error ()
    else
      .ok (some u, { s with apiKeys := s.apiKeys.map (fun k =>
        if k.keyHash == keyHash then { k with lastUsed := some now }
        else k) })

/-- PlantDatabase.revokeApiKey: UPDATE api_keys SET is_active = false
WHERE key_hash = hash(arg) — the argument is hashed again, so passing
the plaintext token revokes its credential; returns rowCount > 0. -/
def revokeApiKey (s : Store) (hash : String → String) (keyHash : String) :
    Bool × Store :=
  let h := hash keyHash
  (s.apiKeys.any (fun k => k.keyHash == h),
    { s with apiKeys := s.apiKeys.map (fun k =>
      if k.keyHash == h then { k with isActive := false } else k) })

/-- What the middleware did with a request: called next() (with the
attached identity when one was resolved) or ended it with a status. -/
inductive AuthResult where
  | next (userId : Option String)
  | status (code : Nat)
deriving Repr, DecidableEq

/-- createMiddleware (src/src/auth.ts): the exempt check compares
req.path with the literal "api/generate-key"; then missing or
non-Bearer Authorization is 401, a key not starting with "planty" is
401, a throwing lookup is 500, an unknown key is 401, and a resolved
user is attached before next(). `lookupFails` injects a storage failure
inside the try block. -/
def createMiddleware (s : Store) (hash : String → String) (path : String)
    (authHeader : Option String) (now : String) (lookupFails : Bool) :
    AuthResult :=
  if path == "api/generate-key" then .next none
  else
    match authHeader with
    | none => .status 401
    | some h =>
      if !(h.startsWith "Bearer ") then .status 401
      else
        let key := h.drop 7
        if !(key.startsWith "planty") then .status 401
        else
          match getUserByApiKey s hash key now lookupFails with
          | .error _ => .status 500
          | .ok (none, _) => .status 401
          | .ok (some u, _) => .next (some u.id)

/-- Status strings of the get_watering_schedule handler. -/
inductive ScheduleStatus where
  | neverWatered
  | overdue
  | dueSoon
deriving Repr, DecidableEq

/-- One entry of the schedule output: the plant, its daysOverdue field
(null for a never-watered plant) and its status string. -/
structure ScheduleEntry where
  plant : Plant
  daysOverdue : Option Int
  status : ScheduleStatus
deriving Repr, DecidableEq

/-- daysUntilNextWatering = wateringFrequency - Math.floor((now -
lastWatered.getTime()) / 86400000); Math.floor on the real quotient is
Int.fdiv. Date.getTime on the stored date string is the abstract
`toTime`; `nowMs` is today.getTime(). -/
def daysUntilNext (nowMs : Int) (toTime : String → Int) (p : Plant)
    (lw : String) : Int :=
  p.wateringFrequency - Int.fdiv (nowMs - toTime lw) 86400000

/-- The per-plant body of get_watering_schedule (handlers.ts): a plant
never watered maps to a "Never watered" entry; otherwise the plant is
kept iff daysUntilNextWatering <= daysAhead, with daysOverdue the
negated days-until value and status "Overdue" iff
daysUntilNextWatering < 0, else "Due soon". -/
def scheduleEntry (nowMs : Int) (toTime : String → Int) (daysAhead : Int)
    (plant : Plant) : Option ScheduleEntry :=
  match plant.lastWatered with
  | none => some ⟨plant, none, .neverWatered⟩
  | some lw =>
    let d := daysUntilNext nowMs toTime plant lw
    if d ≤ daysAhead then
      some ⟨plant, some (-d), if d < 0 then .overdue else .dueSoon⟩
    else none

/-- daysAhead = (args?.daysAhead as number) || 3: an absent argument
and the falsy 0 both give 3. -/
def effectiveDaysAhead (daysAheadArg : Option Int) : Int :=
  match daysAheadArg with
  | none => 3
  | some d => if d == 0 then 3 else d

/-- get_watering_schedule over db.listPlants(userId) with no filters,
keeping the non-null mapped entries. -/
def getWateringSchedule (s : Store) (userId : String)
    (daysAheadArg : Option Int) (nowMs : Int) (toTime : String → Int) :
    List ScheduleEntry :=
  (listPlants s userId ⟨none, none⟩).filterMap
    (scheduleEntry nowMs toTime (effectiveDaysAhead daysAheadArg))

/-- The SSE session registry of src/src/http.ts: userTransports is a
Map from userId to the live transport; a transport is identified here
by the Nat allocated at its creation, and `nextId` is the allocator. -/
structure SseRegistry where
  transports : List (String × Nat)
  nextId : Nat
deriving Repr, DecidableEq

/-- The registry before any connection. -/
def SseRegistry.init : SseRegistry := ⟨[], 0⟩

/-- The GET /sse handler body (userTransports variant): when
userTransports.get(userId) is set, the existing transport is closed and
deleted, then the fresh transport is stored under userId. -/
def sseConnect (r : SseRegistry) (userId : String) : SseRegistry :=
  let cleared := match r.transports.find? (fun e => e.1 == userId) with
    | some _ => r.transports.filter (fun e => e.1 != userId)
    | none => r.transports
  ⟨(userId, r.nextId) :: cleared, r.nextId + 1⟩

/-- transport.onclose: userTransports.delete(userId). -/
def sseClose (r : SseRegistry) (userId : String) : SseRegistry :=
  ⟨r.transports.filter (fun e => e.1 != userId), r.nextId⟩

/-- The event alphabet of the registry: a client connecting on /sse or
a transport closing. -/
inductive SseEvent where
  | connect (userId : String)
  | close (userId : String)
deriving Repr, DecidableEq

/-- Replaying a trace of events from a state. -/
def sseRun (r : SseRegistry) : List SseEvent → SseRegistry
  | [] => r
  | e :: es =>
    match e with
    | .connect u => sseRun (sseConnect r u) es
    | .close u => sseRun (sseClose r u) es

/-- At most one live transport per identity. -/
def atMostOnePerUser (r : SseRegistry) : Prop :=
  ∀ u : String, (r.transports.countP (fun e => e.1 == u)) ≤ 1

/-! Sample rows used by the concrete witnesses and counterexamples. -/

/-- A plant owned by user "A". -/
def fernPlant : Plant :=
  ⟨"p1", "A", "Fern", "Nephrolepis", "Kitchen", "2025-01-01", 3, none,
    none, "2025-01-01T00:00:00Z", "2025-01-01T00:00:00Z"⟩

/-- A store holding only fernPlant. -/
def fernStore : Store := ⟨[], [], [fernPlant], [], [], []⟩

/-- The empty store. -/
def emptyStore : Store := ⟨[], [], [], [], [], []⟩

end Planty

namespace Planty

/-- Claim C1: for every plant p owned by user A and every user B ≠ A,
getPlant(B, p.id) returns the same not-found result (undefined, i.e.
none) as getPlant with an id that no plant has — per-user isolation
with no distinguishing information. Identifier uniqueness (the plants
PRIMARY KEY) is the `huniq` hypothesis. -/
theorem getPlant_isolation (s : Store) (p : Plant) (B : String)
    (hmem : p ∈ s.plants) (hne : B ≠ p.userId)
    (huniq : (s.plants.map Plant.id).Nodup)
    (badId : String) (hbad : ∀ q ∈ s.plants, q.id ≠ badId) :
    getPlant s B p.id = none ∧ getPlant s B badId = none := by
  constructor
  · show (s.plants.filter (fun q => q.id == p.id && q.userId == B)).head? = none
    have hnil : s.plants.filter (fun q => q.id == p.id && q.userId == B) = [] := by
      rw [List.filter_eq_nil_iff]
      intro q hq hpred
      simp only [Bool.and_eq_true, beq_iff_eq] at hpred
      obtain ⟨hid, huser⟩ := hpred
      have hq_eq : q = p := List.inj_on_of_nodup_map huniq hq hmem hid
      exact hne (by rw [← huser, hq_eq])
    rw [hnil]; rfl
  · show (s.plants.filter (fun q => q.id == badId && q.userId == B)).head? = none
    have hnil : s.plants.filter (fun q => q.id == badId && q.userId == B) = [] := by
      rw [List.filter_eq_nil_iff]
      intro q hq hpred
      simp only [Bool.and_eq_true, beq_iff_eq] at hpred
      exact hbad q hq hpred.1
    rw [hnil]; rfl

/-- Claim C1 witness: user "B" cannot see user "A"'s plant "p1" in
fernStore, and the answer coincides with that for the absent id "zzz". -/
theorem getPlant_isolation_witness :
    getPlant fernStore "B" "p1" = none ∧ getPlant fernStore "B" "zzz" = none :=
  getPlant_isolation fernStore fernPlant "B" (by decide) (by decide)
    (by decide) "zzz" (by decide)

/-- Claim C10: when no plant with the given id is owned by the caller
(the getPlant guard finds nothing), waterPlant, addGrowthLog and
addPlantImage all return the not-found result and leave the store
untouched — the guard precedes every insert and update. -/
theorem guard_failure_no_write (s : Store) (userId plantId : String)
    (h : getPlant s userId plantId = none)
    (wateredDate : String) (notes : Option String)
    (freshId now : String) (failAfterInsert : Bool)
    (logDate measureType measureUnit : String) (value : Int)
    (filename : String) (caption : Option String) (takenAt : String) :
    waterPlant s userId plantId wateredDate notes freshId now failAfterInsert
        = .notFound s
    ∧ addGrowthLog s userId plantId logDate measureType measureUnit value
        notes freshId now = (none, s)
    ∧ addPlantImage s userId plantId filename caption takenAt freshId now
        = (none, s) := by
  unfold waterPlant addGrowthLog addPlantImage
  rw [h]
  exact ⟨rfl, rfl, rfl⟩

/-- Claim C10 witness: against fernStore, user "B" (who owns nothing)
gets not-found from all three writers and the store is unchanged. -/
theorem guard_failure_no_write_witness :
    waterPlant fernStore "B" "p1" "2025-02-03" none "w1" "T1" false
        = .notFound fernStore
    ∧ addGrowthLog fernStore "B" "p1" "2025-02-03" "height" "cm" 12 none
        "g1" "T1" = (none, fernStore)
    ∧ addPlantImage fernStore "B" "p1" "fern.jpg" none "2025-02-03" "i1"
        "T1" = (none, fernStore) :=
  guard_failure_no_write fernStore "B" "p1" (by decide) "2025-02-03" none
    "w1" "T1" false "2025-02-03" "height" "cm" 12 "fern.jpg" none
    "2025-02-03"

/-- Claim C2: waterPlant issues the watering_history INSERT and the
plants UPDATE as two independent statements with no transaction, so the
run in which the second statement fails leaves the store with the event
persisted while the plant's last-watered date is untouched — refuting
"either both persist or neither persists". The left conjunct evaluates
waterPlant on fernStore with the failure injected between the two
statements; the resulting store's waterings table holds the new event
while its plants table is exactly fernStore's; the remaining conjuncts
spell that out. -/
theorem waterPlant_failure_keeps_event :
    waterPlant fernStore "A" "p1" "2025-02-03" none "w1" "T1" true =
      .failedBetween
        ⟨[], [], [fernPlant],
          [⟨"w1", "A", "p1", "2025-02-03", none, "T1"⟩], [], []⟩
    ∧ fernPlant.lastWatered = none
    ∧ fernPlant.updatedAt ≠ "T1" := by decide

/-- Claim C4: the exempt-path check of createMiddleware compares
req.path against the literal "api/generate-key", but an Express request
path always carries its leading slash, so the key-issuance request
"/api/generate-key" is not bypassed: with no Authorization header it is
rejected with 401 (the repository's own middleware test expects next()
to be called on this path). The health-check path is not on the exempt
list at all and is likewise rejected. Only the literal without the
slash — a path no Express request has — would be bypassed. -/
theorem generateKey_path_not_exempt :
    createMiddleware emptyStore (fun t => "h:" ++ t) "/api/generate-key"
        none "T1" false = .status 401
    ∧ createMiddleware emptyStore (fun t => "h:" ++ t) "/health"
        none "T1" false = .status 401
    ∧ createMiddleware emptyStore (fun t => "h:" ++ t) "api/generate-key"
        none "T1" false = .next none := by decide

/-- Claim C5: createUser's catch block resolves a duplicate-email
insert by looking up the freshly generated id — which the failed insert
never stored — instead of the email, so it finds nothing and rethrows:
with "a@b.c" already owned by user "u1", a second createUser with that
email yields the storage error, not "u1". -/
theorem createUser_duplicate_email_rethrows :
    createUser ⟨[⟨"u1", some "a@b.c", "T0"⟩], [], [], [], [], []⟩
      (some "a@b.c") "f81d4fae-7dec-11d0-a765-00a0c91e6bf6" "T1"
      = .error () := by rfl

/-- Rewriting every row matched by a WHERE clause with `f` turns the
first matched row into `f` of the old first matched row, when `f`
preserves the columns the clause tests. -/
theorem head_filter_map_update (l : List Plant) (pred : Plant → Bool)
    (f : Plant → Plant) (hpres : ∀ q, pred (f q) = pred q)
    (p : Plant) (hhead : (l.filter pred).head? = some p) :
    ((l.map (fun q => if pred q then f q else q)).filter pred).head? =
      some (f p) := by
  induction l with
  | nil => simp at hhead
  | cons a l ih =>
    by_cases ha : pred a
    · rw [List.filter_cons_of_pos ha] at hhead
      simp only [List.head?_cons, Option.some.injEq] at hhead
      subst hhead
      simp only [List.map_cons, if_pos ha]
      rw [List.filter_cons_of_pos (by rw [hpres]; exact ha)]
      rfl
    · rw [List.filter_cons_of_neg (by simpa using ha)] at hhead
      simp only [List.map_cons, if_neg ha]
      rw [List.filter_cons_of_neg (by simpa using ha)]
      exact ih hhead

/-- Claim C8: partial-update semantics of updatePlant. When the plant
is owned and found: a zero-field update is a no-op returning the
current record with the store untouched; a non-empty update returns a
record whose present fields carry the supplied values, whose absent
fields keep their prior values, whose updated timestamp is `now`, and
every plant not matched by the WHERE clause is still in the store; an
absent or not-owned id yields not-found with no change. -/
theorem updatePlant_semantics (s : Store) (userId id : String)
    (u : PlantUpdates) (now : String) (p : Plant)
    (hfound : getPlant s userId id = some p) :
    (u.isEmpty = true → updatePlant s userId id u now = (some p, s))
    ∧ (u.isEmpty = false →
        ∃ r : Plant, (updatePlant s userId id u now).1 = some r
          ∧ r.id = p.id ∧ r.userId = p.userId
          ∧ r.name = u.name.getD p.name
          ∧ r.species = u.species.getD p.species
          ∧ r.location = u.location.getD p.location
          ∧ r.acquiredDate = u.acquiredDate.getD p.acquiredDate
          ∧ r.wateringFrequency = u.wateringFrequency.getD p.wateringFrequency
          ∧ r.lastWatered = u.lastWatered.getD p.lastWatered
          ∧ r.notes = u.notes.getD p.notes
          ∧ r.createdAt = p.createdAt
          ∧ r.updatedAt = now
          ∧ ∀ q ∈ s.plants, ¬(q.id = id ∧ q.userId = userId) →
              q ∈ (updatePlant s userId id u now).2.plants)
    ∧ (∀ s₂ : Store, ∀ uid₂ pid₂ : String, getPlant s₂ uid₂ pid₂ = none →
        updatePlant s₂ uid₂ pid₂ u now = (none, s₂)) := by
  refine ⟨?_, ?_, ?_⟩
  · intro he
    unfold updatePlant
    rw [hfound]
    simp [he]
  · intro he
    have hne : ¬ (u.isEmpty = true) := by simp [he]
    refine ⟨applyUpdates u now p, ?_, rfl, rfl, rfl, rfl, rfl, rfl, rfl,
      rfl, rfl, rfl, rfl, ?_⟩
    · simp only [updatePlant, hfound, if_neg hne]
      show getPlant _ userId id = _
      unfold getPlant
      exact head_filter_map_update s.plants
        (fun r => r.id == id && r.userId == userId) (applyUpdates u now)
        (fun q => rfl) p hfound
    · intro q hq hqne
      simp only [updatePlant, hfound, if_neg hne]
      have hfalse : (q.id == id && q.userId == userId) = false := by
        rw [Bool.and_eq_false_iff]
        by_cases h1 : q.id = id
        · right
          simp only [beq_eq_false_iff_ne, ne_eq]
          intro h2
          exact hqne ⟨h1, h2⟩
        · left
          simp only [beq_eq_false_iff_ne, ne_eq]
          exact h1
      have : (if q.id == id && q.userId == userId then applyUpdates u now q
          else q) = q := by rw [hfalse]; rfl
      rw [← this]
      exact List.mem_map_of_mem _ hq
  · intro s₂ uid₂ pid₂ h
    unfold updatePlant
    rw [h]

/-- Claim C8 witness: the zero-field update on fernStore returns the
current record and leaves the store unchanged. -/
theorem updatePlant_semantics_witness :
    updatePlant fernStore "A" "p1"
      ⟨none, none, none, none, none, none, none⟩ "T9"
      = (some fernPlant, fernStore) :=
  (updatePlant_semantics fernStore "A" "p1"
    ⟨none, none, none, none, none, none, none⟩ "T9" fernPlant
    (by decide)).1 (by decide)

/-- Claim C9 counterexample: an empty-string location filter is
supplied, yet the result still contains fernPlant whose location is
"Kitchen" ≠ "" — the source skips a falsy filter value, so a supplied
empty-string filter does not narrow to location = "". -/
theorem listPlants_empty_filter_cex :
    listPlants fernStore "A" ⟨some "", none⟩ = [fernPlant]
    ∧ fernPlant.location ≠ "" := by decide

/-- The name comparison used by ORDER BY name is total. -/
instance : IsTotal Plant (fun p q : Plant => p.name ≤ q.name) :=
  ⟨fun a b => le_total a.name b.name⟩

/-- The name comparison used by ORDER BY name is transitive. -/
instance : IsTrans Plant (fun p q : Plant => p.name ≤ q.name) :=
  ⟨fun _ _ _ h1 h2 => le_trans h1 h2⟩

/-- The WHERE clause of listPlants holds exactly for the caller's
plants matching every supplied non-empty filter value. -/
theorem listPlantsPred_iff (userId : String) (filters : Filters)
    (p : Plant) :
    listPlantsPred userId filters p = true ↔
      (p.userId = userId
        ∧ (∀ l, filters.location = some l → l ≠ "" → p.location = l)
        ∧ (∀ sp, filters.species = some sp → sp ≠ "" → p.species = sp)) := by
  obtain ⟨lo, spf⟩ := filters
  unfold listPlantsPred
  cases lo with
  | none =>
    cases spf with
    | none => simp
    | some s0 =>
      by_cases hs : s0 = ""
      · subst hs; simp
      · simp [hs]
  | some l0 =>
    by_cases hl : l0 = ""
    · subst hl
      cases spf with
      | none => simp
      | some s0 =>
        by_cases hs : s0 = ""
        · subst hs; simp
        · simp [hs]
    · cases spf with
      | none => simp [hl]
      | some s0 =>
        by_cases hs : s0 = ""
        · subst hs; simp [hl]
        · simp only [hs]; simp [hl, hs, and_assoc]

/-- Claim C9 (amended): listPlants returns exactly the caller's plants
matching every supplied non-empty filter value — a supplied
empty-string filter is ignored — ordered by name ascending. -/
theorem listPlants_spec (s : Store) (userId : String) (filters : Filters) :
    (∀ p : Plant, p ∈ listPlants s userId filters ↔
      (p ∈ s.plants ∧ p.userId = userId
        ∧ (∀ l, filters.location = some l → l ≠ "" → p.location = l)
        ∧ (∀ sp, filters.species = some sp → sp ≠ "" → p.species = sp)))
    ∧ (listPlants s userId filters).Sorted
        (fun p q : Plant => p.name ≤ q.name) := by
  constructor
  · intro p
    unfold listPlants
    rw [List.Perm.mem_iff (List.perm_insertionSort _ _)]
    rw [List.mem_filter]
    rw [listPlantsPred_iff]
  · exact List.sorted_insertionSort _ _

/-- Claim C9 witness: against fernStore with a "Kitchen" location
filter, fernPlant is in the result, and the result is name-sorted. -/
theorem listPlants_spec_witness :
    fernPlant ∈ listPlants fernStore "A" ⟨some "Kitchen", none⟩ :=
  ((listPlants_spec fernStore "A" ⟨some "Kitchen", none⟩).1 fernPlant).mpr
    ⟨by decide, rfl, by intro l hl h2; cases hl; rfl, by simp⟩

/-- A plant of user "A" watered so that exactly zero days remain until
it is due: wateringFrequency 5 with the last watering 5 whole days
before `nowMs` under the time map used in the schedule samples. -/
def basilPlant : Plant :=
  ⟨"p2", "A", "Basil", "Ocimum basilicum", "Balcony", "2025-01-01", 5,
    some "2025-01-01", none, "T0", "T0"⟩

/-- A store holding only basilPlant. -/
def basilStore : Store := ⟨[], [], [basilPlant], [], [], []⟩

/-- Claim C3 counterexample: with wateringFrequency 5 and the last
watering exactly 5 days ago, daysUntilDue = 0 and the plant is included
in the schedule, but the handler classifies it "Due soon"
(daysUntilNextWatering < 0 is strict), not overdue as the claim's
"negative or zero" classification requires. -/
theorem schedule_zero_days_not_overdue :
    getWateringSchedule basilStore "A" none (5 * 86400000) (fun _ => 0) =
      [⟨basilPlant, some 0, .dueSoon⟩]
    ∧ ScheduleStatus.dueSoon ≠ ScheduleStatus.overdue := by decide

/-- A schedule entry produced for a plant always carries that plant. -/
theorem scheduleEntry_plant_eq {nowMs : Int} {toTime : String → Int}
    {daysAhead : Int} {p : Plant} {e : ScheduleEntry}
    (h : scheduleEntry nowMs toTime daysAhead p = some e) : e.plant = p := by
  unfold scheduleEntry at h
  split at h
  · cases h
    rfl
  · dsimp only at h
    split at h
    · cases h
      rfl
    · cases h

/-- Claim C3 (amended): an entry is in the watering schedule iff its
plant is in the caller's (unfiltered, name-ordered) listing and the
per-plant computation keeps it; a never-watered plant is always kept;
a previously-watered plant is kept exactly when daysUntilDue ≤
lookahead (3 when the argument is absent), with status overdue when
daysUntilDue is strictly negative and due-soon when it is zero or
positive. -/
theorem schedule_spec (s : Store) (userId : String)
    (daysAheadArg : Option Int) (nowMs : Int) (toTime : String → Int) :
    (∀ e : ScheduleEntry,
      e ∈ getWateringSchedule s userId daysAheadArg nowMs toTime ↔
        (e.plant ∈ listPlants s userId ⟨none, none⟩
          ∧ scheduleEntry nowMs toTime (effectiveDaysAhead daysAheadArg)
              e.plant = some e))
    ∧ (∀ p : Plant,
        (p.lastWatered = none →
          scheduleEntry nowMs toTime (effectiveDaysAhead daysAheadArg) p =
            some ⟨p, none, .neverWatered⟩)
        ∧ (∀ lw, p.lastWatered = some lw →
            (daysUntilNext nowMs toTime p lw ≤
                effectiveDaysAhead daysAheadArg →
              scheduleEntry nowMs toTime (effectiveDaysAhead daysAheadArg)
                  p =
                some ⟨p, some (-(daysUntilNext nowMs toTime p lw)),
                  if daysUntilNext nowMs toTime p lw < 0 then .overdue
                  else .dueSoon⟩)
            ∧ (effectiveDaysAhead daysAheadArg <
                daysUntilNext nowMs toTime p lw →
              scheduleEntry nowMs toTime (effectiveDaysAhead daysAheadArg)
                  p = none)))
    ∧ effectiveDaysAhead none = 3 := by
  refine ⟨?_, ?_, rfl⟩
  · intro e
    unfold getWateringSchedule
    rw [List.mem_filterMap]
    constructor
    · rintro ⟨a, ha, hfa⟩
      have hp := scheduleEntry_plant_eq hfa
      rw [← hp] at ha hfa
      exact ⟨ha, hfa⟩
    · rintro ⟨hmem, he⟩
      exact ⟨e.plant, hmem, he⟩
  · intro p
    refine ⟨?_, ?_⟩
    · intro hn
      unfold scheduleEntry
      rw [hn]
    · intro lw hlw
      refine ⟨?_, ?_⟩
      · intro hle
        unfold scheduleEntry
        rw [hlw]
        simp only [if_pos hle]
      · intro hgt
        unfold scheduleEntry
        rw [hlw]
        simp only [if_neg (not_le.mpr hgt)]

/-- Claim C3 witness: the due-soon entry for basilPlant is in the
schedule of basilStore when zero days remain until it is due. -/
theorem schedule_spec_witness :
    (⟨basilPlant, some 0, ScheduleStatus.dueSoon⟩ : ScheduleEntry) ∈
      getWateringSchedule basilStore "A" none (5 * 86400000)
        (fun _ => 0) :=
  ((schedule_spec basilStore "A" none (5 * 86400000) (fun _ => 0)).1
      ⟨basilPlant, some 0, ScheduleStatus.dueSoon⟩).mpr
    ⟨by decide, by decide⟩

/-- Claim C6 counterexample: getUserByApiKey awaits the last-used
UPDATE with no guard, so on the run where recording the last-used time
fails the whole resolution rejects (.error) — while the same lookup
with the recording succeeding returns the user. The failure to record
therefore does change the authentication decision. -/
theorem resolve_record_failure_changes_decision :
    (getUserByApiKey
        (createApiKey ⟨[⟨"u6", none, "T0"⟩], [], [], [], [], []⟩
          (fun t => "h:" ++ t) "u6" "planty_live_k" "k1" "T1").2
        (fun t => "h:" ++ t) "planty_live_k" "T2" true = .error ())
    ∧ (∃ s' : Store, getUserByApiKey
        (createApiKey ⟨[⟨"u6", none, "T0"⟩], [], [], [], [], []⟩
          (fun t => "h:" ++ t) "u6" "planty_live_k" "k1" "T1").2
        (fun t => "h:" ++ t) "planty_live_k" "T2" false
          = .ok (some ⟨"u6", none, "T0"⟩, s')) :=
  ⟨rfl, ⟨_, rfl⟩⟩

/-- getUserByApiKey with its two local constants unfolded (pure
zeta-reduction of the definition, used to rewrite under the match). -/
theorem getUserByApiKey_eq (s : Store) (hash : String → String)
    (apiKey now2 : String) (recordFails : Bool) :
    getUserByApiKey s hash apiKey now2 recordFails =
      (match (s.apiKeys.filterMap (fun k =>
          if k.keyHash == hash apiKey && k.isActive then
            s.users.find? (fun v => v.id == k.userId)
          else none)).head? with
       | none => .ok (none, s)
       | some v =>
         if recordFails then .error ()
         else
           .ok (some v, { s with apiKeys := s.apiKeys.map (fun k =>
             if k.keyHash == hash apiKey then { k with lastUsed := some now2 }
             else k) })) := rfl

/-- Resolving a token all of whose hash-matching credentials are
inactive yields not-found with no write. -/
theorem getUserByApiKey_inactive (s : Store) (hash : String → String)
    (apiKey now2 : String)
    (h : ∀ k ∈ s.apiKeys, k.keyHash = hash apiKey → k.isActive = false) :
    getUserByApiKey s hash apiKey now2 false = .ok (none, s) := by
  have hnil : s.apiKeys.filterMap (fun k =>
      if k.keyHash == hash apiKey && k.isActive then
        s.users.find? (fun v => v.id == k.userId)
      else none) = [] := by
    rw [List.filterMap_eq_nil_iff]
    intro k hk
    by_cases hkh : k.keyHash = hash apiKey
    · rw [if_neg]
      rw [h k hk hkh]
      simp
    · rw [if_neg]
      simp only [Bool.and_eq_true, beq_iff_eq]
      intro hcontra
      exact hkh hcontra.1
  rw [getUserByApiKey_eq, hnil]
  rfl

/-- Claim C6 (amended): issuing a credential for user u returns the
plaintext token once; resolving that token immediately afterwards (with
the last-used recording succeeding) yields u; resolving any token whose
matching credentials are all inactive yields not-found, and in
particular resolving after revoking the same token yields not-found.
(The further original clause — that a failure to record the last-used
time leaves the authentication decision unchanged — is refuted by
resolve_record_failure_changes_decision.) -/
theorem apiKey_roundtrip (s : Store) (hash : String → String) (u : UserRow)
    (apiKey freshId now now2 : String)
    (hu : s.users.find? (fun v => v.id == u.id) = some u)
    (hfresh : ∀ k ∈ s.apiKeys, k.keyHash ≠ hash apiKey) :
    (createApiKey s hash u.id apiKey freshId now).1 = apiKey
    ∧ (∃ s' : Store,
        getUserByApiKey (createApiKey s hash u.id apiKey freshId now).2
          hash apiKey now2 false = .ok (some u, s'))
    ∧ (getUserByApiKey
        (revokeApiKey (createApiKey s hash u.id apiKey freshId now).2
          hash apiKey).2 hash apiKey now2 false =
       .ok (none,
        (revokeApiKey (createApiKey s hash u.id apiKey freshId now).2
          hash apiKey).2))
    ∧ (∀ s₃ : Store,
        (∀ k ∈ s₃.apiKeys, k.keyHash = hash apiKey → k.isActive = false) →
        getUserByApiKey s₃ hash apiKey now2 false = .ok (none, s₃)) := by
  have hjoin : ∀ t : Store, t.users = s.users →
      t.apiKeys = s.apiKeys ++
        [⟨freshId, u.id, hash apiKey, apiKey.take 16, now, none, true⟩] →
      (t.apiKeys.filterMap (fun k =>
        if k.keyHash == hash apiKey && k.isActive then
          t.users.find? (fun v => v.id == k.userId)
        else none)) = [u] := by
    intro t hus hks
    rw [hks, List.filterMap_append]
    have h1 : s.apiKeys.filterMap (fun k =>
        if k.keyHash == hash apiKey && k.isActive then
          t.users.find? (fun v => v.id == k.userId)
        else none) = [] := by
      rw [List.filterMap_eq_nil_iff]
      intro k hk
      rw [if_neg]
      simp only [Bool.and_eq_true, beq_iff_eq]
      intro hcontra
      exact hfresh k hk hcontra.1
    rw [h1, hus]
    simp [hu]
  refine ⟨rfl, ?_, ?_, fun s₃ h => getUserByApiKey_inactive s₃ hash apiKey now2 h⟩
  · refine ⟨{ (createApiKey s hash u.id apiKey freshId now).2 with
      apiKeys := (createApiKey s hash u.id apiKey freshId now).2.apiKeys.map
        (fun k => if k.keyHash == hash apiKey then
          { k with lastUsed := some now2 } else k) }, ?_⟩
    rw [getUserByApiKey_eq,
      hjoin (createApiKey s hash u.id apiKey freshId now).2 rfl rfl]
    rfl
  · apply getUserByApiKey_inactive
    intro k hk hkh
    have hk' : k ∈ ((createApiKey s hash u.id apiKey freshId now).2.apiKeys.map
        (fun k => if k.keyHash == hash apiKey then
          { k with isActive := false } else k)) := hk
    rw [List.mem_map] at hk'
    obtain ⟨k₀, hk₀, hkeq⟩ := hk'
    by_cases h₀ : k₀.keyHash = hash apiKey
    · rw [← hkeq]
      rw [if_pos (by simpa using h₀)]
    · rw [if_neg (by simpa using h₀)] at hkeq
      rw [← hkeq] at hkh
      exact absurd hkh h₀

/-- Claim C6 witness: a concrete issue/resolve/revoke sequence for user
"u6" with an injective sample hash. -/
theorem apiKey_roundtrip_witness :
    ∃ s' : Store,
      getUserByApiKey
        (createApiKey ⟨[⟨"u6", none, "T0"⟩], [], [], [], [], []⟩
          (fun t => "h:" ++ t) "u6" "planty_live_r" "k2" "T1").2
        (fun t => "h:" ++ t) "planty_live_r" "T2" false
        = .ok (some ⟨"u6", none, "T0"⟩, s') :=
  (apiKey_roundtrip ⟨[⟨"u6", none, "T0"⟩], [], [], [], [], []⟩
    (fun t => "h:" ++ t) ⟨"u6", none, "T0"⟩ "planty_live_r" "k2" "T1"
    "T2" (by decide) (by decide)).2.1

end Planty

namespace Planty

/-- Connecting preserves the at-most-one-transport-per-identity
invariant: the handler evicts any registered transport for the user
before storing the fresh one. -/
theorem sseConnect_preserves (r : SseRegistry) (u : String)
    (h : atMostOnePerUser r) : atMostOnePerUser (sseConnect r u) := by
  intro v
  unfold sseConnect
  cases hf : r.transports.find? (fun e => e.1 == u) with
  | some p =>
    simp only [List.countP_cons]
    by_cases hv : u = v
    · subst hv
      have hz : (r.transports.filter (fun e => e.1 != u)).countP
          (fun e => e.1 == u) = 0 := by
        rw [List.countP_eq_zero]
        intro a ha
        have := List.of_mem_filter ha
        simpa using this
      simp [hz]
    · have hne : ((u, r.nextId).1 == v) = false := by simpa using hv
      rw [hne]
      simp only [if_neg Bool.false_ne_true, Nat.add_zero]
      calc (r.transports.filter (fun e => e.1 != u)).countP
            (fun e => e.1 == v)
          ≤ r.transports.countP (fun e => e.1 == v) :=
            (List.filter_sublist r.transports).countP_le _
        _ ≤ 1 := h v
  | none =>
    simp only [List.countP_cons]
    by_cases hv : u = v
    · subst hv
      have hz : r.transports.countP (fun e => e.1 == u) = 0 := by
        rw [List.countP_eq_zero]
        intro a ha
        have := List.find?_eq_none.mp hf a ha
        simpa using this
      simp [hz]
    · have hne : ((u, r.nextId).1 == v) = false := by simpa using hv
      rw [hne]
      simp only [if_neg Bool.false_ne_true, Nat.add_zero]
      exact h v

/-- A transport closing preserves the invariant. -/
theorem sseClose_preserves (r : SseRegistry) (u : String)
    (h : atMostOnePerUser r) : atMostOnePerUser (sseClose r u) := by
  intro v
  calc (r.transports.filter (fun e => e.1 != u)).countP (fun e => e.1 == v)
      ≤ r.transports.countP (fun e => e.1 == v) :=
        (List.filter_sublist r.transports).countP_le _
    _ ≤ 1 := h v

/-- Replaying any trace preserves the invariant. -/
theorem sseRun_preserves (es : List SseEvent) (r : SseRegistry)
    (h : atMostOnePerUser r) : atMostOnePerUser (sseRun r es) := by
  induction es generalizing r with
  | nil => exact h
  | cons e es ih =>
    cases e with
    | connect u => exact ih _ (sseConnect_preserves r u h)
    | close u => exact ih _ (sseClose_preserves r u h)

/-- Claim C7: in every state of the session registry reachable from the
empty registry by connect/close events there is at most one live
transport per identity, and after a connect the only transport
registered for that identity is the freshly created one — the prior
session was closed and evicted before the new one was activated. -/
theorem sse_single_session (es : List SseEvent) :
    atMostOnePerUser (sseRun SseRegistry.init es)
    ∧ ∀ (r : SseRegistry) (u : String),
        ∀ e ∈ (sseConnect r u).transports, e.1 = u → e.2 = r.nextId := by
  constructor
  · exact sseRun_preserves es SseRegistry.init (by intro u; simp [SseRegistry.init])
  · intro r u e he heq
    unfold sseConnect at he
    cases hf : r.transports.find? (fun e => e.1 == u) with
    | some p =>
      rw [hf] at he
      rcases List.mem_cons.mp he with h1 | h2
      · rw [h1]
      · have := List.of_mem_filter h2
        rw [heq] at this
        simp at this
    | none =>
      rw [hf] at he
      rcases List.mem_cons.mp he with h1 | h2
      · rw [h1]
      · have := List.find?_eq_none.mp hf e h2
        rw [heq] at this
        simp at this

/-- Claim C7 witness: after alice connects twice and bob once, alice
has at most one live transport. -/
theorem sse_single_session_witness :
    ((sseRun SseRegistry.init
        [.connect "alice", .connect "alice", .connect "bob"]).transports.countP
      (fun e => e.1 == "alice")) ≤ 1 :=
  (sse_single_session [.connect "alice", .connect "alice", .connect "bob"]).1
    "alice"

end Planty
